import Mathlib

/-!
Verification of the `rcn` wire-format codec (`src/rcn/src/vn_proto.rs`).

Byte buffers are modelled as `List Nat` (each element a byte value).
Rust outcomes are modelled by `RRes`: `ok` for a successful return,
`err` for a `bail!`/`Err` return, and `panicked` for a Rust panic
(out-of-bounds slice, `get_u8` on an empty `bytes::Buf`, ...).
-/

/-- Outcome of a fallible Rust operation: success, explicit error, or panic. -/
inductive RRes (α : Type) where
  | ok : α → RRes α
  | err : String → RRes α
  | panicked : RRes α
deriving DecidableEq, Repr

def RRes.isOk {α : Type} : RRes α → Bool
  | .ok _ => true
  | _ => false

def RRes.isErr {α : Type} : RRes α → Bool
  | .err _ => true
  | _ => false

/-- Big-endian u16 read at offset `i` (`bytes::Buf::get_u16`). -/
def get_u16_at (data : List Nat) (i : Nat) : Nat :=
  data.getD i 0 * 256 + data.getD (i+1) 0

/-- Big-endian u32 read at offset `i` (`bytes::Buf::get_u32`). -/
def get_u32_at (data : List Nat) (i : Nat) : Nat :=
  ((data.getD i 0 * 256 + data.getD (i+1) 0) * 256 + data.getD (i+2) 0) * 256
    + data.getD (i+3) 0

/-- Signed interpretation of a 16-bit pattern (`bytes::Buf::get_i16`). -/
def to_i16 (n : Nat) : Int :=
  if n < 32768 then (n : Int) else (n : Int) - 65536

/-- Two's-complement 16-bit pattern of an `i16` value (`BufMut::put_i16`). -/
def i16_bits (k : Int) : Nat := (k % 65536).toNat

/-- Big-endian bytes of a u16 (`BufMut::put_u16`; wraps like `as u16`). -/
def be16 (n : Nat) : List Nat := [n / 256 % 256, n % 256]

/-- Big-endian bytes of a u32 (`BufMut::put_u32`). -/
def be32 (n : Nat) : List Nat :=
  [n / 16777216 % 256, n / 65536 % 256, n / 256 % 256, n % 256]

/-- Rust range slice `&data[a..b]`: panics unless `a <= b <= data.len()`. -/
def sliceRange (data : List Nat) (a b : Nat) : RRes (List Nat) :=
  if a ≤ b ∧ b ≤ data.length then .ok ((data.drop a).take (b - a)) else .panicked

/-- `find_str_null`: position of the first zero byte, if any. -/
def find_str_null : List Nat → Option Nat
  | [] => none
  | b :: rest => if b = 0 then some 0 else (find_str_null rest).map (· + 1)

def HEADER_LENGTH : Nat := 12

/-- `PacketRef`: a borrowed view over the whole datagram. -/
structure PacketRef where
  data : List Nat
deriving DecidableEq, Repr

/-- `PacketRef::parse_from`: requires 12 bytes and a declared length that
fits in the bytes remaining after the 2-byte length field. -/
def PacketRef.parse_from (data : List Nat) : RRes PacketRef :=
  if data.length < HEADER_LENGTH then .err "data too short"
  else if get_u16_at data 0 > data.length - 2 then .err "too large field.length"
  else .ok ⟨data⟩

def PacketRef.length (p : PacketRef) : Nat := get_u16_at p.data 0

def PacketRef.code (p : PacketRef) : Nat := get_u16_at p.data 2

def PacketRef.fsm_id (p : PacketRef) : Nat := get_u32_at p.data 4

def PacketRef.key (p : PacketRef) : Int := to_i16 (get_u16_at p.data 8)

def PacketRef.sn (p : PacketRef) : Nat := get_u16_at p.data 10

/-- `PacketRef::payload`: `&data[HEADER_LENGTH..len+2]`. -/
def PacketRef.payload (p : PacketRef) : RRes (List Nat) :=
  sliceRange p.data HEADER_LENGTH (p.length + 2)

/-- `PacketRef::cn_path_data`: `&data[len..]` (note: offset `len`, not `len+2`). -/
def PacketRef.cn_path_data (p : PacketRef) : RRes (List Nat) :=
  sliceRange p.data p.length p.data.length

/-- `Header::write_to2`: 12-byte header followed by the payload; the length
field is `(12 + payload.len()) as u16 - 2` (wrapping). -/
def Header.write_to2 (code : Nat) (fsm_id : Nat) (key : Int) (sn : Nat)
    (payload : List Nat) : List Nat :=
  be16 (((HEADER_LENGTH + payload.length) % 65536 + 65536 - 2) % 65536)
    ++ be16 code ++ be32 fsm_id ++ be16 (i16_bits key) ++ be16 sn ++ payload

/-- `TagRef`: one-byte code, two-byte big-endian length, payload slice. -/
structure TagRef where
  tag : Nat
  payload : List Nat
deriving DecidableEq, Repr

/-- `TagRef::parse_from`: requires 3 bytes and a declared length that fits
in the bytes remaining after the 3-byte tag header. -/
def TagRef.parse_from (data : List Nat) : RRes TagRef :=
  if data.length < 3 then .err "tag at least 3 bytes"
  else if get_u16_at data 1 > data.length - 3 then .err "too large tag.length"
  else .ok ⟨data.headI, (data.drop 3).take (get_u16_at data 1)⟩

/-- `TagIter`: repeatedly parse tags from the front until the buffer is
empty; a parse failure consumes the rest and yields one error item. -/
def tagRun (buf : List Nat) : List (RRes TagRef) :=
  if h : buf.length = 0 then []
  else
    match TagRef.parse_from buf with
    | .ok tag => .ok tag :: tagRun (buf.drop (tag.payload.length + 3))
    | .err e => [.err e]
    | .panicked => [.panicked]
termination_by buf.length
decreasing_by simp only [List.length_drop]; omega

/-- `StrIter`: yield null-terminated strings until no null byte remains;
the remainder (if any) is silently dropped. -/
def strRun (buf : List Nat) : List (List Nat) :=
  if h : buf.length = 0 then []
  else
    match find_str_null buf with
    | some pos => buf.take pos :: strRun (buf.drop (pos + 1))
    | none => []
termination_by buf.length
decreasing_by simp only [List.length_drop]; omega

/-- `CodecDescRef`: index, payload type, and the codec-name bytes
before the null terminator. -/
structure CodecDescRef where
  index : Nat
  payload_type : Nat
  mapdata : List Nat
deriving DecidableEq, Repr

/-- `CodecDescRef::parse_from`: two fixed bytes then a null-terminated
codec-name string; returns bytes consumed and the descriptor. -/
def CodecDescRef.parse_from (data : List Nat) : RRes (Nat × CodecDescRef) :=
  if data.length < 3 then .err "codec at least 3 bytes"
  else
    match find_str_null (data.drop 2) with
    | none => .err "Not found null for codec map str"
    | some pos =>
      .ok (pos + 3, ⟨data.headI, (data.drop 1).headI, (data.drop 2).take pos⟩)

/-- The `for _ in 0..count` loop of `CodecDescRef::parse_vec_from`,
returning the remaining buffer and the parsed descriptors. -/
def CodecDescRef.parse_vec_loop : Nat → List Nat → RRes (List Nat × List CodecDescRef)
  | 0, buf => .ok (buf, [])
  | n + 1, buf =>
    match CodecDescRef.parse_from buf with
    | .ok (len, obj) =>
      match CodecDescRef.parse_vec_loop n (buf.drop len) with
      | .ok (rest, v) => .ok (rest, obj :: v)
      | .err e => .err e
      | .panicked => .panicked
    | .err e => .err e
    | .panicked => .panicked

/-- `CodecDescRef::parse_vec_from`: `buf.get_u8()` for the count — a panic
when the buffer is empty — then that many descriptors; returns bytes
consumed and the vector. -/
def CodecDescRef.parse_vec_from (data : List Nat) : RRes (Nat × List CodecDescRef) :=
  match data with
  | [] => .panicked
  | count :: buf =>
    match CodecDescRef.parse_vec_loop count buf with
    | .ok (rest, v) => .ok (data.length - rest.length, v)
    | .err e => .err e
    | .panicked => .panicked

/-- `MediaInfoRef`: T38-support flag and the three codec lists. -/
structure MediaInfoRef where
  support_t38 : Bool
  audio_codecs : List CodecDescRef
  video_codecs : List CodecDescRef
  fax_codecs : List CodecDescRef
deriving DecidableEq, Repr

/-- `MediaInfoRef::parse_from`: minimum 4 bytes; T38 byte (`!= 1`), then
three codec descriptor lists; returns bytes consumed and the structure. -/
def MediaInfoRef.parse_from (data : List Nat) : RRes (Nat × MediaInfoRef) :=
  if data.length < 4 then .err "Mediainfo at least 4 bytes"
  else
    match CodecDescRef.parse_vec_from (data.drop 1) with
    | .ok (n1, audio_codecs) =>
      match CodecDescRef.parse_vec_from ((data.drop 1).drop n1) with
      | .ok (n2, video_codecs) =>
        match CodecDescRef.parse_vec_from (((data.drop 1).drop n1).drop n2) with
        | .ok (n3, fax_codecs) =>
          .ok (data.length - ((((data.drop 1).drop n1).drop n2).drop n3).length,
            ⟨data.headI != 1, audio_codecs, video_codecs, fax_codecs⟩)
        | .err e => .err e
        | .panicked => .panicked
      | .err e => .err e
      | .panicked => .panicked
    | .err e => .err e
    | .panicked => .panicked

/-- `RequestChannelRef`: part1 view, call id, optional agora info,
part2 view, and the remaining webrtc string-run buffer. -/
structure RequestChannelRef where
  fixed_part1 : List Nat
  as_call_id : List Nat
  agora_info : Option (List Nat)
  fixed_part2 : List Nat
  webrtc : List Nat
deriving DecidableEq, Repr

/-- Tail of `RequestChannelRef::parse_from` after the optional agora
field: the 6-byte part2 check and the webrtc remainder. -/
def RequestChannelRef.finish (part1 callid : List Nat)
    (agora : Option (List Nat)) (buf : List Nat) : RRes RequestChannelRef :=
  if buf.length < 6 then .err "RequestChannel part2 at least 6 bytes"
  else .ok ⟨part1, callid, agora, buf.take 6, buf.drop 6⟩

/-- `RequestChannelRef::parse_from`: minimum 12 bytes; 4-byte part1, a
null-terminated call id, an agora-info string iff `part1[3]` (the media
type) is 4 or 7, then 6-byte part2 and the webrtc remainder. -/
def RequestChannelRef.parse_from (data : List Nat) : RRes RequestChannelRef :=
  if data.length < 12 then .err "RequestChannel at least 12 bytes"
  else
    match find_str_null (data.drop 4) with
    | none => .err "Not found null for as_call_id"
    | some pos =>
      if (data.take 4).getD 3 0 = 4 ∨ (data.take 4).getD 3 0 = 7 then
        match find_str_null ((data.drop 4).drop (pos + 1)) with
        | none => .err "Not found null for agora_info"
        | some pos2 =>
          RequestChannelRef.finish (data.take 4) ((data.drop 4).take pos)
            (some (((data.drop 4).drop (pos + 1)).take pos2))
            (((data.drop 4).drop (pos + 1)).drop (pos2 + 1))
      else
        RequestChannelRef.finish (data.take 4) ((data.drop 4).take pos) none
          ((data.drop 4).drop (pos + 1))

/-- `RtpInfoRef`: part1 view, attribute, part2 view, and the remaining
description string-run buffer. -/
structure RtpInfoRef where
  fixed_part1 : List Nat
  attr : List Nat
  fixed_part2 : List Nat
  part3 : List Nat
deriving DecidableEq, Repr

/-- `RtpInfoRef::parse_from`: `MIN_LEN = 9 + 1 + 2 + 6 = 18`; 9-byte
part1, null-terminated attribute, 2-byte part2, description remainder. -/
def RtpInfoRef.parse_from (data : List Nat) : RRes RtpInfoRef :=
  if data.length < 18 then .err "RtpInfo at least 18 bytes"
  else
    match find_str_null (data.drop 9) with
    | none => .err "Not found null for as_call_id"
    | some pos =>
      if ((data.drop 9).drop (pos + 1)).length < 2 then
        .err "RtpInfo part2 at least 2 bytes"
      else
        .ok ⟨data.take 9, (data.drop 9).take pos,
          ((data.drop 9).drop (pos + 1)).take 2,
          ((data.drop 9).drop (pos + 1)).drop 2⟩

/-- A well-formed TLV record: byte-valued code, byte-valued payload whose
length fits the two-byte length field. -/
def validTLV (code : Nat) (payload : List Nat) : Prop :=
  code < 256 ∧ payload.length < 65536 ∧ ∀ b ∈ payload, b < 256

instance (code : Nat) (payload : List Nat) : Decidable (validTLV code payload) := by
  unfold validTLV
  infer_instance

/-- Encode one TLV record: code byte, big-endian length, payload. -/
def encodeTLV (code : Nat) (payload : List Nat) : List Nat :=
  code :: be16 payload.length ++ payload

/-! ### Helper lemmas -/

theorem find_str_null_of_not_mem (l : List Nat) (h : 0 ∉ l) :
    find_str_null l = none := by
  induction l with
  | nil => rfl
  | cons b rest ih =>
    simp only [List.mem_cons, not_or] at h
    simp only [find_str_null, if_neg (by omega : ¬ b = 0), ih h.2, Option.map_none']

theorem find_str_null_append (s t : List Nat) (hs : 0 ∉ s) :
    find_str_null (s ++ 0 :: t) = some s.length := by
  induction s with
  | nil => rfl
  | cons b rest ih =>
    simp only [List.mem_cons, not_or] at hs
    simp only [List.cons_append, find_str_null, if_neg (by omega : ¬ b = 0),
      List.append_eq, ih hs.2, Option.map_some', List.length_cons]

theorem to_i16_i16_bits (k : Int) (h1 : -32768 ≤ k) (h2 : k < 32768) :
    to_i16 (i16_bits k) = k := by
  unfold to_i16 i16_bits
  split <;> omega

theorem i16_bits_lt (k : Int) : i16_bits k < 65536 := by
  unfold i16_bits
  omega

/-! ### Claim theorems -/

/-- C1: the claim says `cn_path_data` returns exactly the bytes from offset
`2 + length` to the end. On the accepted 13-byte buffer with declared
length 10 and one trailing byte `65`, the code's `cn_path_data`
(`&data[len..]`) returns `[0, 0, 65]` — the two `sn` bytes plus the
trailing byte — while the bytes from offset `2 + length` are `[65]`. -/
theorem cn_path_data_offset_divergence :
    PacketRef.parse_from [0, 10, 0, 0, 0, 0, 0, 0, 0, 0, 0, 0, 65]
      = .ok ⟨[0, 10, 0, 0, 0, 0, 0, 0, 0, 0, 0, 0, 65]⟩
  ∧ PacketRef.length ⟨[0, 10, 0, 0, 0, 0, 0, 0, 0, 0, 0, 0, 65]⟩ = 10
  ∧ PacketRef.cn_path_data ⟨[0, 10, 0, 0, 0, 0, 0, 0, 0, 0, 0, 0, 65]⟩
      = .ok [0, 0, 65]
  ∧ List.drop (2 + 10) [0, 10, 0, 0, 0, 0, 0, 0, 0, 0, 0, 0, 65] = [65]
  ∧ ([0, 0, 65] : List Nat) ≠ [65] := by decide

/-- C2: the claim says every buffer accepted by `PacketRef::parse_from`
satisfies `length >= 10`, making `payload`'s range `[12, length+2)` valid.
The 12-byte all-zero buffer (declared length 0) is accepted, yet
`payload` computes the slice `&data[12..2]`, whose start exceeds its end —
a Rust slice panic. -/
theorem payload_panics_on_small_length :
    PacketRef.parse_from (List.replicate 12 0) = .ok ⟨List.replicate 12 0⟩
  ∧ PacketRef.length ⟨List.replicate 12 0⟩ = 0
  ∧ PacketRef.payload ⟨List.replicate 12 0⟩ = .panicked := by decide

/-- C3: the claim says MediaInfo parsing returns a value or an explicit
error on every input, never panicking. On `[0, 1, 1, 2, 0]` the first
codec list (count 1, entry `1, 2, nul`) consumes the whole remainder, and
the second list's count read is `get_u8` on an empty buffer — a panic. -/
theorem mediainfo_parse_panics :
    MediaInfoRef.parse_from [0, 1, 1, 2, 0] = .panicked := by decide

/-- C5: Packet parsing succeeds exactly when the buffer has at least 12
bytes and the declared length is at most the bytes after the length field,
and errs otherwise; Tag parsing succeeds exactly when the buffer has at
least 3 bytes and the declared tag length is at most the bytes after the
3-byte tag header, and errs otherwise. -/
theorem packet_tag_parse_failure_exact (data : List Nat) :
    ((PacketRef.parse_from data).isOk = true ↔
      (12 ≤ data.length ∧ get_u16_at data 0 ≤ data.length - 2))
  ∧ ((PacketRef.parse_from data).isErr = true ↔
      ¬(12 ≤ data.length ∧ get_u16_at data 0 ≤ data.length - 2))
  ∧ ((TagRef.parse_from data).isOk = true ↔
      (3 ≤ data.length ∧ get_u16_at data 1 ≤ data.length - 3))
  ∧ ((TagRef.parse_from data).isErr = true ↔
      ¬(3 ≤ data.length ∧ get_u16_at data 1 ≤ data.length - 3)) := by
  unfold PacketRef.parse_from TagRef.parse_from HEADER_LENGTH
  refine ⟨?_, ?_, ?_, ?_⟩ <;>
    (split <;> [skip; split] <;> simp [RRes.isOk, RRes.isErr] <;> omega)

/-- C6: for every payload accepted by MediaInfo parsing, `support_t38` is
false exactly when the first payload byte is 1, true for any other
value. -/
theorem mediainfo_support_t38 (data : List Nat) (n : Nat) (r : MediaInfoRef)
    (h : MediaInfoRef.parse_from data = .ok (n, r)) :
    r.support_t38 = (data.headI != 1) := by
  unfold MediaInfoRef.parse_from at h
  repeat' split at h
  all_goals simp at h
  all_goals obtain ⟨-, h2⟩ := h
  all_goals subst h2
  all_goals rfl

/-- C6 witness: the payload `[2, 0, 0, 0]` is accepted with
`support_t38 = true`. -/
theorem mediainfo_support_t38_witness :
    MediaInfoRef.parse_from [2, 0, 0, 0] = .ok (4, ⟨true, [], [], []⟩)
  ∧ (MediaInfoRef.mk true [] [] []).support_t38
      = (([2, 0, 0, 0] : List Nat).headI != 1) :=
  ⟨by decide, mediainfo_support_t38 [2, 0, 0, 0] 4 ⟨true, [], [], []⟩ (by decide)⟩

/-- C4: serializing a `Header` with a payload (length at most 65523) and
parsing the result as a Packet succeeds and returns the same `code`,
`fsm_id`, `key`, `sn`, a declared length of `10 + payload.length`, and a
payload slice equal to the original payload bytes. -/
theorem header_roundtrip (code fsm_id : Nat) (key : Int) (sn : Nat)
    (payload : List Nat)
    (hc : code < 65536) (hf : fsm_id < 4294967296)
    (hk1 : -32768 ≤ key) (hk2 : key < 32768)
    (hs : sn < 65536) (hp : payload.length ≤ 65523) :
    PacketRef.parse_from (Header.write_to2 code fsm_id key sn payload)
        = .ok ⟨Header.write_to2 code fsm_id key sn payload⟩
  ∧ PacketRef.code ⟨Header.write_to2 code fsm_id key sn payload⟩ = code
  ∧ PacketRef.fsm_id ⟨Header.write_to2 code fsm_id key sn payload⟩ = fsm_id
  ∧ PacketRef.key ⟨Header.write_to2 code fsm_id key sn payload⟩ = key
  ∧ PacketRef.sn ⟨Header.write_to2 code fsm_id key sn payload⟩ = sn
  ∧ PacketRef.length ⟨Header.write_to2 code fsm_id key sn payload⟩
      = 10 + payload.length
  ∧ PacketRef.payload ⟨Header.write_to2 code fsm_id key sn payload⟩
      = .ok payload := by
  have hlen : (Header.write_to2 code fsm_id key sn payload).length
      = 12 + payload.length := by
    simp [Header.write_to2, be16, be32]
    omega
  have h0 : get_u16_at (Header.write_to2 code fsm_id key sn payload) 0
      = 10 + payload.length := by
    have e : get_u16_at (Header.write_to2 code fsm_id key sn payload) 0
        = (((12 + payload.length) % 65536 + 65536 - 2) % 65536) / 256 % 256 * 256
          + (((12 + payload.length) % 65536 + 65536 - 2) % 65536) % 256 := rfl
    rw [e]; omega
  have h2 : get_u16_at (Header.write_to2 code fsm_id key sn payload) 2 = code := by
    have e : get_u16_at (Header.write_to2 code fsm_id key sn payload) 2
        = code / 256 % 256 * 256 + code % 256 := rfl
    rw [e]; omega
  have h4 : get_u32_at (Header.write_to2 code fsm_id key sn payload) 4 = fsm_id := by
    have e : get_u32_at (Header.write_to2 code fsm_id key sn payload) 4
        = ((fsm_id / 16777216 % 256 * 256 + fsm_id / 65536 % 256) * 256
            + fsm_id / 256 % 256) * 256 + fsm_id % 256 := rfl
    rw [e]; omega
  have h8 : get_u16_at (Header.write_to2 code fsm_id key sn payload) 8
      = i16_bits key := by
    have e : get_u16_at (Header.write_to2 code fsm_id key sn payload) 8
        = i16_bits key / 256 % 256 * 256 + i16_bits key % 256 := rfl
    have hb := i16_bits_lt key
    rw [e]; omega
  have h10 : get_u16_at (Header.write_to2 code fsm_id key sn payload) 10 = sn := by
    have e : get_u16_at (Header.write_to2 code fsm_id key sn payload) 10
        = sn / 256 % 256 * 256 + sn % 256 := rfl
    rw [e]; omega
  have hdrop : (Header.write_to2 code fsm_id key sn payload).drop 12 = payload := rfl
  refine ⟨?_, ?_, ?_, ?_, ?_, ?_, ?_⟩
  · unfold PacketRef.parse_from HEADER_LENGTH
    rw [if_neg (by omega), if_neg (by rw [h0, hlen]; omega)]
  · exact h2
  · exact h4
  · show to_i16 (get_u16_at (Header.write_to2 code fsm_id key sn payload) 8) = key
    rw [h8]
    exact to_i16_i16_bits key hk1 hk2
  · exact h10
  · exact h0
  · show sliceRange (Header.write_to2 code fsm_id key sn payload) HEADER_LENGTH
        (get_u16_at (Header.write_to2 code fsm_id key sn payload) 0 + 2) = .ok payload
    rw [h0]
    unfold sliceRange HEADER_LENGTH
    rw [if_pos (by rw [hlen]; omega)]
    rw [hdrop]
    have e : 10 + payload.length + 2 - 12 = payload.length := by omega
    rw [e, List.take_length]

/-- C4 witness: round trip at code `0xff03`, fsm_id 5000000, key `-1`,
sn 7, payload `[1, 2, 3]`. -/
theorem header_roundtrip_witness :
    PacketRef.parse_from (Header.write_to2 65283 5000000 (-1) 7 [1, 2, 3])
        = .ok ⟨Header.write_to2 65283 5000000 (-1) 7 [1, 2, 3]⟩
  ∧ PacketRef.code ⟨Header.write_to2 65283 5000000 (-1) 7 [1, 2, 3]⟩ = 65283
  ∧ PacketRef.fsm_id ⟨Header.write_to2 65283 5000000 (-1) 7 [1, 2, 3]⟩ = 5000000
  ∧ PacketRef.key ⟨Header.write_to2 65283 5000000 (-1) 7 [1, 2, 3]⟩ = -1
  ∧ PacketRef.sn ⟨Header.write_to2 65283 5000000 (-1) 7 [1, 2, 3]⟩ = 7
  ∧ PacketRef.length ⟨Header.write_to2 65283 5000000 (-1) 7 [1, 2, 3]⟩
      = 10 + ([1, 2, 3] : List Nat).length
  ∧ PacketRef.payload ⟨Header.write_to2 65283 5000000 (-1) 7 [1, 2, 3]⟩
      = .ok [1, 2, 3] :=
  header_roundtrip 65283 5000000 (-1) 7 [1, 2, 3] (by decide) (by decide)
    (by decide) (by decide) (by decide) (by decide)

/-- C7: for every accepted RequestChannel payload, agora info is present
iff the part1 media-type byte is 4 or 7; when it is neither, agora info is
absent and part2 is the 6 bytes directly after the call-id terminator; when
it is 4 or 7 and no second null byte follows the call-id, parsing errs. -/
theorem requestchannel_agora_conditional (data : List Nat) :
    (∀ r, RequestChannelRef.parse_from data = .ok r →
      (r.agora_info.isSome = true ↔
        ((data.take 4).getD 3 0 = 4 ∨ (data.take 4).getD 3 0 = 7)))
  ∧ (∀ r, RequestChannelRef.parse_from data = .ok r →
      ¬((data.take 4).getD 3 0 = 4 ∨ (data.take 4).getD 3 0 = 7) →
      ∃ pos, find_str_null (data.drop 4) = some pos
        ∧ r.agora_info = none
        ∧ r.as_call_id = (data.drop 4).take pos
        ∧ r.fixed_part2 = (((data.drop 4).drop (pos + 1)).take 6))
  ∧ (12 ≤ data.length →
      ((data.take 4).getD 3 0 = 4 ∨ (data.take 4).getD 3 0 = 7) →
      ∀ pos, find_str_null (data.drop 4) = some pos →
      find_str_null ((data.drop 4).drop (pos + 1)) = none →
      ∃ e, RequestChannelRef.parse_from data = .err e) := by
  refine ⟨?_, ?_, ?_⟩
  · intro r h
    unfold RequestChannelRef.parse_from at h
    repeat' split at h
    all_goals simp_all [RequestChannelRef.finish]
    all_goals (try (split at h <;> simp_all))
    all_goals (subst h; simp_all)
  · intro r h hmt
    unfold RequestChannelRef.parse_from at h
    repeat' split at h
    all_goals simp_all [RequestChannelRef.finish]
    all_goals (try (split at h <;> simp_all))
    all_goals (subst h; simp_all)
  · intro h12 hmt pos hpos hnone
    unfold RequestChannelRef.parse_from
    rw [if_neg (by omega), hpos]
    simp only [hmt, if_true, hnone]
    exact ⟨_, rfl⟩

/-- C7 witness: a media-type-4 payload with two strings parses with agora
info present; a media-type-1 payload parses with agora info absent and
part2 right after the call id; a media-type-4 payload lacking a second
null byte fails to parse. -/
theorem requestchannel_agora_conditional_witness :
    ((RequestChannelRef.mk [0, 0, 0, 4] [65] (some [66]) [1, 2, 3, 4, 5, 6]
        [7]).agora_info.isSome = true ↔
      ((([0, 0, 0, 4, 65, 0, 66, 0, 1, 2, 3, 4, 5, 6, 7] : List Nat).take 4).getD 3 0 = 4
        ∨ (([0, 0, 0, 4, 65, 0, 66, 0, 1, 2, 3, 4, 5, 6, 7] : List Nat).take 4).getD 3 0 = 7))
  ∧ (∃ pos, find_str_null (([0, 0, 0, 1, 65, 0, 1, 2, 3, 4, 5, 6, 7] : List Nat).drop 4)
        = some pos
      ∧ (RequestChannelRef.mk [0, 0, 0, 1] [65] none [1, 2, 3, 4, 5, 6] [7]).agora_info = none
      ∧ (RequestChannelRef.mk [0, 0, 0, 1] [65] none [1, 2, 3, 4, 5, 6] [7]).as_call_id
          = (([0, 0, 0, 1, 65, 0, 1, 2, 3, 4, 5, 6, 7] : List Nat).drop 4).take pos
      ∧ (RequestChannelRef.mk [0, 0, 0, 1] [65] none [1, 2, 3, 4, 5, 6] [7]).fixed_part2
          = ((([0, 0, 0, 1, 65, 0, 1, 2, 3, 4, 5, 6, 7] : List Nat).drop 4).drop (pos + 1)).take 6)
  ∧ (∃ e, RequestChannelRef.parse_from [0, 0, 0, 4, 65, 0, 1, 2, 3, 4, 5, 6, 7]
        = .err e) :=
  ⟨(requestchannel_agora_conditional [0, 0, 0, 4, 65, 0, 66, 0, 1, 2, 3, 4, 5, 6, 7]).1
      ⟨[0, 0, 0, 4], [65], some [66], [1, 2, 3, 4, 5, 6], [7]⟩ (by decide),
   (requestchannel_agora_conditional [0, 0, 0, 1, 65, 0, 1, 2, 3, 4, 5, 6, 7]).2.1
      ⟨[0, 0, 0, 1], [65], none, [1, 2, 3, 4, 5, 6], [7]⟩ (by decide) (by decide),
   (requestchannel_agora_conditional [0, 0, 0, 4, 65, 0, 1, 2, 3, 4, 5, 6, 7]).2.2
      (by decide) (by decide) 1 (by decide) (by decide)⟩

/-- Parsing a tag at the front of an encoded TLV record followed by
anything yields that record's code and payload. -/
theorem tag_parse_encode (code : Nat) (payload rest : List Nat)
    (hlen : payload.length < 65536) :
    TagRef.parse_from (encodeTLV code payload ++ rest) = .ok ⟨code, payload⟩ := by
  have hshape : encodeTLV code payload ++ rest
      = code :: payload.length / 256 % 256 :: payload.length % 256
          :: (payload ++ rest) := by
    simp [encodeTLV, be16]
  rw [hshape]
  unfold TagRef.parse_from
  have hlen2 : (code :: payload.length / 256 % 256 :: payload.length % 256
      :: (payload ++ rest)).length = 3 + payload.length + rest.length := by
    simp; omega
  have hg : get_u16_at (code :: payload.length / 256 % 256
      :: payload.length % 256 :: (payload ++ rest)) 1 = payload.length := by
    have e : get_u16_at (code :: payload.length / 256 % 256
        :: payload.length % 256 :: (payload ++ rest)) 1
        = payload.length / 256 % 256 * 256 + payload.length % 256 := rfl
    rw [e]; omega
  rw [if_neg (by omega), if_neg (by rw [hg]; omega), hg]
  have hdrop : (code :: payload.length / 256 % 256 :: payload.length % 256
      :: (payload ++ rest)).drop 3 = payload ++ rest := rfl
  rw [hdrop, List.take_left]
  rfl

/-- C8: iterating tags over the concatenation of N valid TLV records
yields exactly those N tags, in order, each successful with the record's
code and payload; on the empty buffer (N = 0) it yields nothing. -/
theorem tag_run_exhaustion (rs : List (Nat × List Nat))
    (h : ∀ r ∈ rs, validTLV r.1 r.2) :
    tagRun ((rs.map (fun r => encodeTLV r.1 r.2)).flatten)
      = rs.map (fun r => .ok ⟨r.1, r.2⟩) := by
  induction rs with
  | nil => simp [tagRun]
  | cons r rs ih =>
    obtain ⟨hc, hl, hb⟩ := h r (by simp)
    have hrest : ∀ x ∈ rs, validTLV x.1 x.2 := fun x hx => h x (by simp [hx])
    simp only [List.map_cons, List.flatten_cons]
    rw [tagRun.eq_def]
    rw [dif_neg (by simp [encodeTLV, be16])]
    rw [tag_parse_encode r.1 r.2 _ hl]
    have hdrop : (encodeTLV r.1 r.2
          ++ (rs.map (fun x => encodeTLV x.1 x.2)).flatten).drop (r.2.length + 3)
        = (rs.map (fun x => encodeTLV x.1 x.2)).flatten := by
      apply List.drop_left'
      simp [encodeTLV, be16]
    simp only []
    rw [hdrop, ih hrest]

/-- C8 witness: two records — code 1 payload `[9, 9]`, code 6 empty
payload — iterate to exactly those two successful tags. -/
theorem tag_run_exhaustion_witness :
    tagRun (([((1 : Nat), [9, 9]), ((6 : Nat), ([] : List Nat))].map
        (fun r => encodeTLV r.1 r.2)).flatten)
      = [((1 : Nat), [9, 9]), ((6 : Nat), ([] : List Nat))].map
          (fun r => .ok ⟨r.1, r.2⟩) :=
  tag_run_exhaustion [(1, [9, 9]), (6, [])] (by decide)

/-- C9 counterexample: the claimed minimal well-formed Rtp-Info payload —
9-byte part1, a lone null terminator, 2-byte part2, 12 bytes total — is
rejected, because the parser requires `MIN_LEN = 9 + 1 + 2 + 6 = 18`
bytes, not just the fixed-size portions. -/
theorem rtpinfo_counterexample :
    RtpInfoRef.parse_from [0, 0, 0, 0, 0, 0, 0, 0, 0, 0, 0, 0]
      = .err "RtpInfo at least 18 bytes" := by decide

/-- C9 (amended): an Rtp-Info payload of 9-byte part1, a null-terminated
attribute with no interior null, 2-byte part2 and an empty description run
parses successfully provided its attribute has at least 6 bytes (total at
least the enforced 18-byte minimum). -/
theorem rtpinfo_min_18 (p1 attr p2 : List Nat)
    (h1 : p1.length = 9) (ha : 0 ∉ attr) (h2 : p2.length = 2)
    (hmin : 6 ≤ attr.length) :
    RtpInfoRef.parse_from (p1 ++ attr ++ [0] ++ p2) = .ok ⟨p1, attr, p2, []⟩ := by
  have hassoc : p1 ++ attr ++ [0] ++ p2 = p1 ++ (attr ++ 0 :: p2) := by
    simp
  rw [hassoc]
  have hlen : (p1 ++ (attr ++ 0 :: p2)).length = 12 + attr.length := by
    simp [h1, h2]; omega
  have hdrop9 : (p1 ++ (attr ++ 0 :: p2)).drop 9 = attr ++ 0 :: p2 :=
    List.drop_left' h1
  have htake9 : (p1 ++ (attr ++ 0 :: p2)).take 9 = p1 :=
    List.take_left' h1
  have hdrop2 : (attr ++ 0 :: p2).drop (attr.length + 1) = p2 := by
    rw [show attr ++ 0 :: p2 = (attr ++ [0]) ++ p2 by simp]
    exact List.drop_left' (by simp)
  unfold RtpInfoRef.parse_from
  rw [if_neg (by omega), hdrop9, find_str_null_append attr p2 ha]
  dsimp only
  rw [hdrop2, if_neg (by omega), htake9, List.take_left]
  have e2 : p2.take 2 = p2 := by rw [← h2, List.take_length]
  have e3 : p2.drop 2 = [] := by rw [← h2, List.drop_length]
  rw [e2, e3]

/-- C9 witness: an 18-byte Rtp-Info payload with a 6-byte attribute
parses successfully. -/
theorem rtpinfo_min_18_witness :
    RtpInfoRef.parse_from ([0, 0, 0, 0, 0, 0, 0, 0, 0] ++ [1, 1, 1, 1, 1, 1]
        ++ [0] ++ [3, 4])
      = .ok ⟨[0, 0, 0, 0, 0, 0, 0, 0, 0], [1, 1, 1, 1, 1, 1], [3, 4], []⟩ :=
  rtpinfo_min_18 [0, 0, 0, 0, 0, 0, 0, 0, 0] [1, 1, 1, 1, 1, 1] [3, 4]
    (by decide) (by decide) (by decide) (by decide)

/-- C10: over a buffer of null-terminated strings followed by a residual
with no null byte, the string-run iterator yields exactly those strings in
order; the residual (and a wholly terminator-free buffer: the case of zero
strings) is silently discarded, never reported as an error. -/
theorem str_run_exact (strs : List (List Nat)) (residual : List Nat)
    (hs : ∀ s ∈ strs, 0 ∉ s) (hr : 0 ∉ residual) :
    strRun ((strs.map (fun s => s ++ [0])).flatten ++ residual) = strs := by
  induction strs with
  | nil =>
    simp only [List.map_nil, List.flatten_nil, List.nil_append]
    rw [strRun.eq_def]
    split
    · rfl
    · rw [find_str_null_of_not_mem residual hr]
  | cons s ss ih =>
    have hns : 0 ∉ s := hs s (by simp)
    have hrest : ∀ x ∈ ss, 0 ∉ x := fun x hx => hs x (by simp [hx])
    have hshape : ((s :: ss).map (fun s => s ++ [0])).flatten ++ residual
        = s ++ 0 :: ((ss.map (fun s => s ++ [0])).flatten ++ residual) := by
      simp
    rw [hshape, strRun.eq_def]
    rw [dif_neg (by simp)]
    rw [find_str_null_append s _ hns]
    dsimp only
    have htake : (s ++ 0 :: ((ss.map (fun s => s ++ [0])).flatten
        ++ residual)).take s.length = s := by
      rw [show s ++ 0 :: ((ss.map (fun s => s ++ [0])).flatten ++ residual)
            = s ++ (0 :: ((ss.map (fun s => s ++ [0])).flatten ++ residual)) from rfl]
      exact List.take_left' rfl
    have hdrop : (s ++ 0 :: ((ss.map (fun s => s ++ [0])).flatten
        ++ residual)).drop (s.length + 1)
        = (ss.map (fun s => s ++ [0])).flatten ++ residual := by
      rw [show s ++ 0 :: ((ss.map (fun s => s ++ [0])).flatten ++ residual)
            = (s ++ [0]) ++ ((ss.map (fun s => s ++ [0])).flatten ++ residual) by simp]
      exact List.drop_left' (by simp)
    rw [htake, hdrop, ih hrest]

/-- C10 witness: the run `A nul B C nul D` yields `[A]` and `[B, C]` and
silently discards the unterminated `D`. -/
theorem str_run_exact_witness :
    strRun (([[65], [66, 67]].map (fun s => s ++ [0])).flatten ++ [68])
      = [[65], [66, 67]] :=
  str_run_exact [[65], [66, 67]] [68] (by decide) (by decide)
